import Mathlib

/-!
Verification of the CCPM multi-backend PM adapter plugin.

The definitions below are a shallow embedding of the JavaScript source:
`PMSAPI` (the API client: headers, endpoint tables, payload builders,
error normalization) and `PMSPlugin` (the command handlers).  JavaScript
values are modelled by `JsValue`; thrown JS errors by `JsError`; the HTTP
transport is abstracted by a `Network` function from requests to outcomes,
so each adapter method is a pure function of the network's behaviour.
-/

namespace CCPM

/-- A JavaScript value, as far as the plugin manipulates them:
`undefined`, `null`, booleans, numbers (modelled as rationals; floating
point rounding and NaN are not exercised by this code), strings, arrays
and plain objects (ordered field lists, as in JS object literals). -/
inductive JsValue where
  | undefined : JsValue
  | null : JsValue
  | bool : Bool → JsValue
  | num : ℚ → JsValue
  | str : String → JsValue
  | arr : List JsValue → JsValue
  | obj : List (String × JsValue) → JsValue

/-- JS truthiness: `undefined`, `null`, `false`, `0` and `""` are falsy;
every object and array is truthy. -/
def jsTruthy : JsValue → Bool
  | .undefined => false
  | .null => false
  | .bool b => b
  | .num q => if q = 0 then false else true
  | .str s => if s = "" then false else true
  | .arr _ => true
  | .obj _ => true

/-- Property access `v.k` on the values this program reads properties
from: a present object field gives its value, anything else `undefined`. -/
def getField : JsValue → String → JsValue
  | .obj fields, k => (fields.lookup k).getD .undefined
  | _, _ => .undefined

/-- Whether an object value has an own property named `k`. -/
def hasField : JsValue → String → Bool
  | .obj fields, k => (fields.lookup k).isSome
  | _, _ => false

/-- JS `a || b`. -/
def jsOr (a b : JsValue) : JsValue := if jsTruthy a then a else b

/-- JS strict equality of a value against a string literal (`v === "s"`). -/
def jsStrictEqStr (v : JsValue) (s : String) : Bool :=
  match v with
  | .str t => t = s
  | _ => false

/-- JS `v !== false`. -/
def jsNotStrictFalse (v : JsValue) : Bool :=
  match v with
  | .bool false => false
  | _ => true

/-- JS number-to-string coercion.  Only integral values are coerced to
strings anywhere in this program, so only those render exactly. -/
def ratToJsString (q : ℚ) : String :=
  if q.den = 1 then toString q.num else toString q

mutual

/-- JS string coercion of a value (template literals, URLSearchParams). -/
def jsToString : JsValue → String
  | .undefined => "undefined"
  | .null => "null"
  | .bool b => if b then "true" else "false"
  | .num q => ratToJsString q
  | .str s => s
  | .arr xs => String.intercalate "," (jsArrElemStrings xs)
  | .obj _ => "[object Object]"

/-- `Array.prototype.join` renders `undefined`/`null` elements as `""`. -/
def jsArrElemStrings : List JsValue → List String
  | [] => []
  | .undefined :: rest => "" :: jsArrElemStrings rest
  | .null :: rest => "" :: jsArrElemStrings rest
  | v :: rest => jsToString v :: jsArrElemStrings rest

end

/-- The base64 alphabet used by `Buffer.toString('base64')`. -/
def base64Chars : List Char :=
  "ABCDEFGHIJKLMNOPQRSTUVWXYZabcdefghijklmnopqrstuvwxyz0123456789+/".toList

def b64c (n : Nat) : Char := base64Chars.getD n '='

/-- Base64-encode a byte list, three bytes at a time, with padding. -/
def base64Chunks : List Nat → String
  | [] => ""
  | [b0] =>
      String.mk [b64c (b0 / 4), b64c (b0 % 4 * 16)] ++ "=="
  | [b0, b1] =>
      String.mk [b64c (b0 / 4), b64c (b0 % 4 * 16 + b1 / 16), b64c (b1 % 16 * 4)] ++ "="
  | b0 :: b1 :: b2 :: rest =>
      String.mk [b64c (b0 / 4), b64c (b0 % 4 * 16 + b1 / 16),
                 b64c (b1 % 16 * 4 + b2 / 64), b64c (b2 % 64)] ++ base64Chunks rest

/-- `Buffer.from(s).toString('base64')`: base64 of the UTF-8 bytes of `s`. -/
def base64Encode (s : String) : String :=
  base64Chunks (s.toUTF8.toList.map (·.toNat))

/-- `PMSAPI.getDefaultHeaders` (api client, lines 60-95): default request
headers per system type.  A JS `switch` on the system type is embedded as
the corresponding chain of equality tests. -/
def getDefaultHeaders (systemType apiToken : String) : List (String × String) :=
  let baseHeaders := [("Accept", "application/json"),
                      ("User-Agent", "PMS-Claude-Plugin/1.0.0")]
  if systemType = "laracollab" then
    baseHeaders ++ [("Authorization", "Bearer " ++ apiToken)]
  else if systemType = "jira" then
    baseHeaders ++ [("Authorization", "Basic " ++ base64Encode (apiToken ++ ":")),
                    ("Content-Type", "application/json")]
  else if systemType = "asana" then
    baseHeaders ++ [("Authorization", "Bearer " ++ apiToken)]
  else if systemType = "trello" then
    baseHeaders ++ [("Authorization", "OAuth oauth_consumer_key=\"" ++ apiToken ++ "\"")]
  else
    baseHeaders ++ [("Authorization", "Bearer " ++ apiToken),
                    ("X-API-Key", apiToken)]

/-- The endpoint table returned by `PMSAPI.getEndpoints`.  Every logical
operation any adapter method looks up is a field; `none` models a JS
object with no such property (the lookup yields `undefined`). -/
structure EndpointTable where
  tasks : Option String
  task : Option (String → String)
  createTask : Option String
  startTask : Option (String → String)
  completeTask : Option (String → String)
  updateProgress : Option (String → String)
  addComment : Option (String → String)
  projects : Option String
  project : Option (String → String)
  systemInfo : Option String
  user : Option String
  searchTasks : Option String
  timeLogs : Option (String → String)
  analyzeCriticalChain : Option (String → String)
  enableCCPM : Option (String → String)
  ccpmReport : Option (String → String)
  updateBufferStatus : Option (String → String)
  recalculateCriticalChain : Option (String → String)
  getResourceLoading : Option (String → String)
  identifyFeedingBuffers : Option (String → String)
  criticalChainTasks : Option (String → String)
  updateTaskBuffer : Option (String → String)
  ccpmDashboard : Option String

/-- `PMSAPI.getEndpoints` (api client, lines 100-194): the per-backend
endpoint tables.  Only the `laracollab` table defines the CCPM entries;
the remaining tables stop at `timeLogs`, exactly as in the source. -/
def getEndpoints (systemType : String) : EndpointTable :=
  if systemType = "laracollab" then
    { tasks := some "/api/ai/tasks"
      task := some (fun id => "/api/ai/tasks/" ++ id)
      createTask := some "/api/ai/tasks"
      startTask := some (fun id => "/api/ai/tasks/" ++ id ++ "/start")
      completeTask := some (fun id => "/api/ai/tasks/" ++ id ++ "/complete")
      updateProgress := some (fun id => "/api/ai/tasks/" ++ id ++ "/progress")
      addComment := some (fun id => "/api/ai/tasks/" ++ id ++ "/comment")
      projects := some "/api/ai/projects"
      project := some (fun id => "/api/ai/projects/" ++ id)
      systemInfo := some "/api/ai/info"
      user := some "/api/user"
      searchTasks := some "/api/ai/tasks/search"
      timeLogs := some (fun id => "/api/ai/tasks/" ++ id ++ "/time-logs")
      analyzeCriticalChain := some (fun id => "/api/ai/projects/" ++ id ++ "/critical-chain/analyze")
      enableCCPM := some (fun id => "/api/ai/projects/" ++ id ++ "/ccpm/enable")
      ccpmReport := some (fun id => "/api/ai/projects/" ++ id ++ "/ccpm/report")
      updateBufferStatus := some (fun id => "/api/ai/projects/" ++ id ++ "/ccpm/buffer-status")
      recalculateCriticalChain := some (fun id => "/api/ai/projects/" ++ id ++ "/critical-chain/recalculate")
      getResourceLoading := some (fun id => "/api/ai/projects/" ++ id ++ "/ccpm/resource-loading")
      identifyFeedingBuffers := some (fun id => "/api/ai/projects/" ++ id ++ "/ccpm/feeding-buffers")
      criticalChainTasks := some (fun id => "/api/ai/projects/" ++ id ++ "/critical-chain/tasks")
      updateTaskBuffer := some (fun id => "/api/ai/tasks/" ++ id ++ "/ccpm/buffer")
      ccpmDashboard := some "/api/ai/ccpm/dashboard" }
  else if systemType = "jira" then
    { tasks := some "/rest/api/2/search?jql=project=PROJECTKEY"
      task := some (fun id => "/rest/api/2/issue/" ++ id)
      createTask := some "/rest/api/2/issue"
      startTask := some (fun id => "/rest/api/2/issue/" ++ id ++ "/transitions")
      completeTask := some (fun id => "/rest/api/2/issue/" ++ id ++ "/transitions")
      updateProgress := some (fun id => "/rest/api/2/issue/" ++ id)
      addComment := some (fun id => "/rest/api/2/issue/" ++ id ++ "/comment")
      projects := some "/rest/api/2/project"
      project := some (fun id => "/rest/api/2/project/" ++ id)
      systemInfo := some "/rest/api/2/serverInfo"
      user := some "/rest/api/2/myself"
      searchTasks := some "/rest/api/2/search"
      timeLogs := some (fun id => "/rest/api/2/issue/" ++ id ++ "/worklog")
      analyzeCriticalChain := none
      enableCCPM := none
      ccpmReport := none
      updateBufferStatus := none
      recalculateCriticalChain := none
      getResourceLoading := none
      identifyFeedingBuffers := none
      criticalChainTasks := none
      updateTaskBuffer := none
      ccpmDashboard := none }
  else if systemType = "asana" then
    { tasks := some "/api/1.0/tasks"
      task := some (fun id => "/api/1.0/tasks/" ++ id)
      createTask := some "/api/1.0/tasks"
      startTask := some (fun id => "/api/1.0/tasks/" ++ id)
      completeTask := some (fun id => "/api/1.0/tasks/" ++ id)
      updateProgress := some (fun id => "/api/1.0/tasks/" ++ id)
      addComment := some (fun id => "/api/1.0/tasks/" ++ id ++ "/stories")
      projects := some "/api/1.0/projects"
      project := some (fun id => "/api/1.0/projects/" ++ id)
      systemInfo := some "/api/1.0/users/me"
      user := some "/api/1.0/users/me"
      searchTasks := some "/api/1.0/tasks/search"
      timeLogs := some (fun id => "/api/1.0/tasks/" ++ id ++ "/time_entries")
      analyzeCriticalChain := none
      enableCCPM := none
      ccpmReport := none
      updateBufferStatus := none
      recalculateCriticalChain := none
      getResourceLoading := none
      identifyFeedingBuffers := none
      criticalChainTasks := none
      updateTaskBuffer := none
      ccpmDashboard := none }
  else if systemType = "trello" then
    { tasks := some "/1/boards/BOARD_ID/cards"
      task := some (fun id => "/1/cards/" ++ id)
      createTask := some "/1/cards"
      startTask := some (fun id => "/1/cards/" ++ id)
      completeTask := some (fun id => "/1/cards/" ++ id)
      updateProgress := some (fun id => "/1/cards/" ++ id)
      addComment := some (fun id => "/1/cards/" ++ id ++ "/actions/comments")
      projects := some "/1/members/me/boards"
      project := some (fun id => "/1/boards/" ++ id)
      systemInfo := some "/1/members/me"
      user := some "/1/members/me"
      searchTasks := some "/1/search"
      timeLogs := some (fun id => "/1/cards/" ++ id ++ "/actions")
      analyzeCriticalChain := none
      enableCCPM := none
      ccpmReport := none
      updateBufferStatus := none
      recalculateCriticalChain := none
      getResourceLoading := none
      identifyFeedingBuffers := none
      criticalChainTasks := none
      updateTaskBuffer := none
      ccpmDashboard := none }
  else
    { tasks := some "/api/tasks"
      task := some (fun id => "/api/tasks/" ++ id)
      createTask := some "/api/tasks"
      startTask := some (fun id => "/api/tasks/" ++ id ++ "/start")
      completeTask := some (fun id => "/api/tasks/" ++ id ++ "/complete")
      updateProgress := some (fun id => "/api/tasks/" ++ id ++ "/progress")
      addComment := some (fun id => "/api/tasks/" ++ id ++ "/comments")
      projects := some "/api/projects"
      project := some (fun id => "/api/projects/" ++ id)
      systemInfo := some "/api/info"
      user := some "/api/user"
      searchTasks := some "/api/tasks/search"
      timeLogs := some (fun id => "/api/tasks/" ++ id ++ "/time-logs")
      analyzeCriticalChain := none
      enableCCPM := none
      ccpmReport := none
      updateBufferStatus := none
      recalculateCriticalChain := none
      getResourceLoading := none
      identifyFeedingBuffers := none
      criticalChainTasks := none
      updateTaskBuffer := none
      ccpmDashboard := none }

/-- The `response` object an HTTP-level (axios) error carries: the status
code of the failed response and its parsed body. -/
structure HttpResponse where
  status : Nat
  data : JsValue

/-- A thrown JS error as this program observes it: its `name`
(`"Error"`, `"TypeError"`, ...), its `message`, an optional attached
`response` (present only on transport-layer errors that reached a
response), and an optional `config` object (axios request metadata). -/
structure JsError where
  name : String
  message : String
  response : Option HttpResponse
  config : JsValue

/-- A plain `new Error(msg)`: no `response`, no `config`. -/
def plainError (msg : String) : JsError :=
  { name := "Error", message := msg, response := none, config := .undefined }

/-- The `TypeError` raised by calling a property that is `undefined`. -/
def typeError (msg : String) : JsError :=
  { name := "TypeError", message := msg, response := none, config := .undefined }

/-- HTTP method of an outgoing request. -/
inductive HttpMethod where
  | get
  | post
  | put

/-- An outgoing request as the axios client sees it (`body` is `undefined`
for GET requests). -/
structure HttpRequest where
  method : HttpMethod
  url : String
  body : JsValue

/-- What the transport produces for a request: a 2xx response body
(axios `response.data`), or a rejection (non-2xx response or network
failure). -/
inductive HttpOutcome where
  | ok (data : JsValue)
  | err (e : JsError)

/-- The transport, abstracted: one outcome per request. -/
def Network : Type := HttpRequest → HttpOutcome

/-- The response interceptor's rejection handler (api client, lines
49-53): it reads `error.response?.data?.message || error.message` and
throws a fresh `new Error` with a prefixed message.  The fresh error
carries no `response` and no `config`. -/
def interceptorReject (error : JsError) : JsError :=
  let bodyMessage :=
    match error.response with
    | some r => getField r.data "message"
    | none => JsValue.undefined
  let message := jsOr bodyMessage (.str error.message)
  plainError ("PMS API Error: " ++ jsToString message)

/-- One `this.client.<method>(...)` call: the success interceptor
unwraps `response.data`; the rejection path throws
`interceptorReject`'s error. -/
def clientCall (net : Network) (req : HttpRequest) : Except JsError JsValue :=
  match net req with
  | .ok data => .ok data
  | .err e => .error (interceptorReject e)

/-- A JS `try ... catch` around an adapter method body: a thrown error is
given to the handler, a normal completion is returned as is. -/
def tryCatch (body : Except JsError JsValue) (handler : JsError → JsValue) : JsValue :=
  match body with
  | .ok v => v
  | .error e => handler e

/-- `PMSAPI.handleError` (api client, lines 773-796): fold a caught error
into the uniform error-response object.  `devMode` models
`process.env.NODE_ENV === 'development'`, which appends a `details`
field. -/
def handleError (devMode : Bool) (error : JsError) : JsValue :=
  let response := error.response
  let status : JsValue :=
    match response with
    | some r => .num r.status
    | none => .undefined
  let data : JsValue :=
    match response with
    | some r => if jsTruthy r.data then r.data else .obj []
    | none => .obj []
  let baseFields : List (String × JsValue) :=
    [("success", .bool false),
     ("message", jsOr (getField data "message") (jsOr (.str error.message) (.str "Unknown API error"))),
     ("status", status),
     ("data", jsOr (getField data "errors") .null)]
  if devMode then
    .obj (baseFields ++
      [("details", .obj [("url", getField error.config "url"),
                         ("method", getField error.config "method"),
                         ("headers", getField error.config "headers"),
                         ("data", getField error.config "data")])])
  else
    .obj baseFields

/-- JS template interpolation of a possibly-absent string-valued
property (an absent property renders as `"undefined"`). -/
def optStr (o : Option String) : String := o.getD "undefined"

/-- Calling a possibly-absent function-valued endpoint entry
(`endpoints.op(id)`): an absent entry raises a `TypeError`. -/
def callEndpoint (f : Option (String → String)) (opName id : String) : Except JsError String :=
  match f with
  | some g => .ok (g id)
  | none => .error (typeError ("endpoints." ++ opName ++ " is not a function"))

/-- `PMSAPI.buildJQL` (api client, lines 733-749). -/
def buildJQL (filters : JsValue) : String :=
  let jql := "project = PROJECTKEY"
  let jql := if jsTruthy (getField filters "status") then
    jql ++ " AND status = \"" ++ jsToString (getField filters "status") ++ "\"" else jql
  let jql := if jsTruthy (getField filters "priority") then
    jql ++ " AND priority = \"" ++ jsToString (getField filters "priority") ++ "\"" else jql
  let jql := if jsTruthy (getField filters "assignee") then
    jql ++ " AND assignee = \"" ++ jsToString (getField filters "assignee") ++ "\"" else jql
  jql

/-- `PMSAPI.buildTrelloFilter` (api client, lines 754-768). -/
def buildTrelloFilter (filters : JsValue) : String :=
  let filterParts : List String :=
    if jsStrictEqStr (getField filters "status") "completed" then ["closed:true"]
    else ["closed:false"]
  let filterParts :=
    if jsTruthy (getField filters "project_id") then
      filterParts ++ ["board:\"" ++ jsToString (getField filters "project_id") ++ "\""]
    else filterParts
  String.intercalate " " filterParts

/-- `PMSAPI.buildTaskParams` (api client, lines 498-524): translate the
generic filter object into backend query parameters.  Note the
`laracollab` branch always emits all three keys, with value `undefined`
when the filter lacks them. -/
def buildTaskParams (systemType : String) (filters : JsValue) : JsValue :=
  if systemType = "laracollab" then
    .obj [("status", getField filters "status"),
          ("priority", getField filters "priority"),
          ("project_id", getField filters "project_id")]
  else if systemType = "jira" then
    .obj [("jql", .str (buildJQL filters)),
          ("fields", .str "summary,status,project,created,updated,priority,assignee")]
  else if systemType = "asana" then
    .obj [("project", getField filters "project_id"),
          ("assignee", .str "me"),
          ("completed", .bool (jsStrictEqStr (getField filters "status") "completed"))]
  else if systemType = "trello" then
    .obj [("filter", .str (buildTrelloFilter filters))]
  else
    filters

/-- One hex digit (upper case, as `URLSearchParams` emits). -/
def hexDigit (n : Nat) : Char := "0123456789ABCDEF".toList.getD n '0'

/-- Two-digit hex rendering of a byte. -/
def hexByte (n : Nat) : String := String.mk [hexDigit (n / 16), hexDigit (n % 16)]

/-- `application/x-www-form-urlencoded` encoding of one character:
space becomes `+`, alphanumerics and `*-._` pass through, everything
else is percent-encoded per UTF-8 byte. -/
def formUrlEncodeChar (c : Char) : String :=
  if c = ' ' then "+"
  else if c.isAlphanum || c = '*' || c = '-' || c = '.' || c = '_' then String.singleton c
  else String.join (((String.singleton c).toUTF8.toList.map (fun b => "%" ++ hexByte b.toNat)))

def formUrlEncode (s : String) : String :=
  String.join (s.toList.map formUrlEncodeChar)

/-- `new URLSearchParams(obj).toString()`: every own enumerable property
is emitted, its value coerced to a string (`undefined` → `"undefined"`). -/
def urlSearchParamsToString (params : JsValue) : String :=
  match params with
  | .obj fields =>
      String.intercalate "&"
        (fields.map (fun p => formUrlEncode p.1 ++ "=" ++ formUrlEncode (jsToString p.2)))
  | _ => ""

/-- The URL `PMSAPI.getTasks` builds (api client, lines 213-215):
`endpoints.tasks` plus a query string whenever `params` is truthy —
and an object is always truthy. -/
def getTasksUrl (systemType : String) (filters : JsValue) : String :=
  let endpoints := getEndpoints systemType
  let params := buildTaskParams systemType filters
  optStr endpoints.tasks ++
    (if jsTruthy params then "?" ++ urlSearchParamsToString params else "")

/-- `PMSAPI.getTasks` (api client, lines 211-220). -/
def getTasks (systemType : String) (devMode : Bool) (net : Network) (filters : JsValue) : JsValue :=
  tryCatch (clientCall net ⟨.get, getTasksUrl systemType filters, .undefined⟩) (handleError devMode)

/-- `PMSAPI.buildTaskPayload` (api client, lines 529-568). -/
def buildTaskPayload (systemType : String) (taskData : JsValue) : JsValue :=
  if systemType = "laracollab" then
    .obj [("project_id", getField taskData "project_id"),
          ("name", getField taskData "name"),
          ("description", getField taskData "description"),
          ("estimation", getField taskData "estimation"),
          ("pricing_type", jsOr (getField taskData "pricing_type") (.str "hourly")),
          ("billable", .bool (jsNotStrictFalse (getField taskData "billable"))),
          ("priority", jsOr (getField taskData "priority") (.str "medium"))]
  else if systemType = "jira" then
    .obj [("fields", .obj
      [("project", .obj [("key", getField taskData "project_key")]),
       ("summary", getField taskData "name"),
       ("description", getField taskData "description"),
       ("priority", .obj [("name", jsOr (getField taskData "priority") (.str "Medium"))]),
       ("issuetype", .obj [("name", jsOr (getField taskData "issue_type") (.str "Task"))])])]
  else if systemType = "asana" then
    .obj [("projects", .arr [getField taskData "project_id"]),
          ("name", getField taskData "name"),
          ("notes", getField taskData "description"),
          ("assignee", .str "me")]
  else if systemType = "trello" then
    .obj [("name", getField taskData "name"),
          ("desc", getField taskData "description"),
          ("idList", getField taskData "list_id"),
          ("due", getField taskData "due_date")]
  else
    taskData

/-- `PMSAPI.createTask` (api client, lines 237-245). -/
def createTask (systemType : String) (devMode : Bool) (net : Network) (taskData : JsValue) : JsValue :=
  tryCatch
    (clientCall net ⟨.post, optStr (getEndpoints systemType).createTask,
                     buildTaskPayload systemType taskData⟩)
    (handleError devMode)

/-- `PMSAPI.buildStartTaskPayload` (api client, lines 573-586). -/
def buildStartTaskPayload (systemType : String) : JsValue :=
  if systemType = "jira" then
    .obj [("transition", .obj [("id", .str "3")])]
  else if systemType = "asana" then
    .obj [("assignee_status", .str "upcoming")]
  else
    .obj []

/-- `PMSAPI.startTask` (api client, lines 250-258). -/
def startTask (systemType : String) (devMode : Bool) (net : Network) (taskId : String) : JsValue :=
  tryCatch
    (do
      let url ← callEndpoint (getEndpoints systemType).startTask "startTask" taskId
      clientCall net ⟨.post, url, buildStartTaskPayload systemType⟩)
    (handleError devMode)

/-- `PMSAPI.buildCompletionPayload` (api client, lines 618-647). -/
def buildCompletionPayload (systemType : String) (completionData : JsValue) : JsValue :=
  if systemType = "laracollab" then
    .obj [("completion_notes", getField completionData "completion_notes"),
          ("deliverables", jsOr (getField completionData "deliverables") (.arr [])),
          ("time_spent_minutes", getField completionData "time_spent_minutes")]
  else if systemType = "jira" then
    .obj [("transition", .obj [("id", .str "5")]),
          ("update", .obj
            [("summary", getField completionData "completion_notes"),
             ("resolution", .obj [("name", .str "Done")])])]
  else if systemType = "asana" then
    .obj [("completed", .bool true),
          ("notes", getField completionData "completion_notes")]
  else if systemType = "trello" then
    .obj [("closed", .bool true),
          ("desc", getField completionData "completion_notes")]
  else
    completionData

/-- `PMSAPI.completeTask` (api client, lines 276-284). -/
def completeTask (systemType : String) (devMode : Bool) (net : Network)
    (taskId : String) (completionData : JsValue) : JsValue :=
  tryCatch
    (do
      let url ← callEndpoint (getEndpoints systemType).completeTask "completeTask" taskId
      clientCall net ⟨.post, url, buildCompletionPayload systemType completionData⟩)
    (handleError devMode)

/-- `PMSAPI.buildCCPMPayload` (api client, lines 679-693). -/
def buildCCPMPayload (systemType : String) (settings : JsValue) : JsValue :=
  if systemType = "laracollab" then
    .obj [("project_buffer_percentage", jsOr (getField settings "project_buffer_percentage") (.num 50)),
          ("feeding_buffer_percentage", jsOr (getField settings "feeding_buffer_percentage") (.num 25)),
          ("resource_utilization_target", jsOr (getField settings "resource_utilization_target") (.num 75)),
          ("analyze_immediately", .bool (jsNotStrictFalse (getField settings "analyze_immediately"))),
          ("critical_chain_start_date", getField settings "start_date"),
          ("estimated_duration_days", getField settings "duration_days")]
  else
    settings

/-- `PMSAPI.enableCCPM` (api client, lines 387-395). -/
def enableCCPM (systemType : String) (devMode : Bool) (net : Network)
    (projectId : String) (settings : JsValue) : JsValue :=
  tryCatch
    (do
      let url ← callEndpoint (getEndpoints systemType).enableCCPM "enableCCPM" projectId
      clientCall net ⟨.post, url, buildCCPMPayload systemType settings⟩)
    (handleError devMode)

/-- `PMSAPI.analyzeCriticalChain` (api client, lines 375-382). -/
def analyzeCriticalChain (systemType : String) (devMode : Bool) (net : Network)
    (projectId : String) : JsValue :=
  tryCatch
    (do
      let url ← callEndpoint (getEndpoints systemType).analyzeCriticalChain
        "analyzeCriticalChain" projectId
      clientCall net ⟨.get, url, .undefined⟩)
    (handleError devMode)

/-- `PMSAPI.getResourceLoading` (api client, lines 437-444). -/
def getResourceLoading (systemType : String) (devMode : Bool) (net : Network)
    (projectId : String) : JsValue :=
  tryCatch
    (do
      let url ← callEndpoint (getEndpoints systemType).getResourceLoading
        "getResourceLoading" projectId
      clientCall net ⟨.get, url, .undefined⟩)
    (handleError devMode)

/-- `PMSAPI.buildTaskBufferPayload` (api client, lines 715-728). -/
def buildTaskBufferPayload (systemType : String) (bufferData : JsValue) : JsValue :=
  if systemType = "laracollab" then
    .obj [("buffer_consumption_percentage", getField bufferData "buffer_consumption_percentage"),
          ("ccpm_status", getField bufferData "ccpm_status"),
          ("actual_duration_days", getField bufferData "actual_duration_days"),
          ("buffer_notes", getField bufferData "buffer_notes"),
          ("completion_variance_days", getField bufferData "completion_variance_days")]
  else
    bufferData

/-- `PMSAPI.updateTaskBuffer` (api client, lines 473-481). -/
def updateTaskBuffer (systemType : String) (devMode : Bool) (net : Network)
    (taskId : String) (bufferData : JsValue) : JsValue :=
  tryCatch
    (do
      let url ← callEndpoint (getEndpoints systemType).updateTaskBuffer
        "updateTaskBuffer" taskId
      clientCall net ⟨.put, url, buildTaskBufferPayload systemType bufferData⟩)
    (handleError devMode)

/-- `PMSAPI.getSystemInfo` (api client, lines 326-333). -/
def getSystemInfo (systemType : String) (devMode : Bool) (net : Network) : JsValue :=
  tryCatch (clientCall net ⟨.get, optStr (getEndpoints systemType).systemInfo, .undefined⟩)
    (handleError devMode)

/-- `PMSAPI.testConnection` (api client, lines 199-206):
`!!(response && (response.ai_version || response.version || response.id))`.
`getSystemInfo` is total (it catches internally), so the surrounding
`catch` branch returning `false` is unreachable in the embedding. -/
def testConnection (systemType : String) (devMode : Bool) (net : Network) : Bool :=
  let response := getSystemInfo systemType devMode net
  jsTruthy response &&
    (jsTruthy (getField response "ai_version") ||
     jsTruthy (getField response "version") ||
     jsTruthy (getField response "id"))

/-- Overwrite an existing header, or append it when new — JS object
property assignment on the headers map. -/
def setHeader : List (String × String) → String → String → List (String × String)
  | [], k, v => [(k, v)]
  | (k', v') :: rest, k, v =>
      if k' = k then (k, v) :: rest else (k', v') :: setHeader rest k v

/-- Reading a header property (`headers.Authorization`): `"undefined"`
when absent, matching JS property access stringification. -/
def headerProp (headers : List (String × String)) (k : String) : String :=
  (headers.lookup k).getD "undefined"

/-- `PMSAPI.setApiToken` (api client, lines 816-819): stores the new
token and reassigns only the `Authorization` header from a freshly
computed header set; no other header is touched. -/
def setApiToken (systemType : String) (headers : List (String × String))
    (newToken : String) : List (String × String) :=
  setHeader headers "Authorization" (headerProp (getDefaultHeaders systemType newToken) "Authorization")

/-- `baseUrl.replace(/\/$/, '')`: strip one trailing slash. -/
def stripTrailingSlash (url : String) : String :=
  if url.endsWith "/" then url.dropRight 1 else url

/-- The client state the `PMSAPI` constructor establishes (api client,
lines 15-27). -/
structure PMSAPIState where
  baseUrl : String
  apiToken : String
  timeout : Nat
  systemType : String
  headers : List (String × String)

/-- The `PMSAPI` constructor: total, for any system type string. -/
def mkPMSAPI (baseUrl apiToken : String) (timeout : Nat) (systemType : String) : PMSAPIState :=
  { baseUrl := stripTrailingSlash baseUrl
    apiToken := apiToken
    timeout := timeout
    systemType := systemType
    headers := getDefaultHeaders systemType apiToken }

/-- `formatError` (utils/formatters.js, lines 89-102), with the
`details` argument explicit (`none` models the omitted argument). -/
def formatError (message : String) (details : Option String) : String :=
  let output := "**❌ Error:** " ++ message
  let output := match details with
    | some d => output ++ "\n\n**Details:** " ++ d
    | none => output
  output ++ "\n\n**Troubleshooting:**\n" ++
    "• Check your API connection with `/lara-status`\n" ++
    "• Verify your configuration with `/lara-config`\n" ++
    "• Make sure you have internet access"

/-- The two configuration fields `ConfigManager.isConfigured` inspects;
an absent or empty value is falsy either way, so both are modelled as
strings with `""` for "unset". -/
structure PluginConfig where
  baseUrl : String
  apiToken : String

/-- `ConfigManager.isConfigured` (config.js, lines 75-77). -/
def isConfigured (config : PluginConfig) : Bool :=
  jsTruthy (.str config.baseUrl) && jsTruthy (.str config.apiToken)

/-- `PMSPlugin.ensureConfigured` (plugin, lines 534-539): THROWS when
the api instance is absent or the config is incomplete; returns `true`
otherwise.  It never returns `false`. -/
def ensureConfigured (api : Option Unit) (config : PluginConfig) : Except JsError Bool :=
  if api.isNone || !isConfigured config then
    .error (plainError "PMS not configured. Please run `/pms-config` first.")
  else
    .ok true

/-- `PMSPlugin.handleTasksCommand` (plugin, lines 142-151).  The
`ensureConfigured` guard sits OUTSIDE the `try`, so an error it throws
propagates out of the handler; `tasksBody` abstracts the guarded body
(`parseTaskFilters` + `taskCommands.listTasks`), whose own errors the
handler catches and formats.  The result is `none` for the bare
`return;` and `some text` for a returned message. -/
def handleTasksCommand (api : Option Unit) (config : PluginConfig)
    (tasksBody : Except JsError String) : Except JsError (Option String) := do
  let ok ← ensureConfigured api config
  if !ok then
    return none
  else
    match tasksBody with
    | .ok s => return (some s)
    | .error e => return (some (formatError ("Error fetching tasks: " ++ e.message) none))

/-- The generic `bufferData` object `PMSPlugin.handleCCPMUpdateBufferCommand`
builds (plugin, lines 385-389) from the parsed percentage.  The source
applies `parseFloat` to the already-numeric percentage, which is the
identity on finite numbers. -/
def ccpmBufferData (percentage : ℚ) : JsValue :=
  .obj [("buffer_consumption_percentage", .num percentage),
        ("ccpm_status", .str
          (if percentage > 75 then "buffer_consumed"
           else if percentage > 50 then "in_progress"
           else "not_started")),
        ("buffer_notes", .str "Buffer updated via PMS plugin")]

/-- A straight-line fragment of JS statements, enough for the bodies of
`handleStatusCommand`'s branches: `const` declaration, `+=` assignment,
`return <var>`, and `return formatError(<var>)`. -/
inductive Stmt where
  | declConst (name : String) (value : String)
  | appendAssign (name : String) (value : String)
  | ret (name : String)
  | retFormatError (name : String)

/-- A declared variable: name, whether it was declared `const`, value. -/
structure Binding where
  name : String
  isConst : Bool
  value : String

def lookupBinding : List Binding → String → Option Binding
  | [], _ => none
  | b :: rest, n => if b.name = n then some b else lookupBinding rest n

def updateBinding : List Binding → String → String → List Binding
  | [], _, _ => []
  | b :: rest, n, v =>
      if b.name = n then { b with value := v } :: rest
      else b :: updateBinding rest n v

/-- Run a straight-line fragment under JS semantics: assigning to a
`const`-declared variable throws
`TypeError: Assignment to constant variable.`; falling off the end
returns `undefined` (`none`). -/
def runStmts : List Stmt → List Binding → Except JsError (Option String)
  | [], _ => .ok none
  | .declConst n v :: rest, env => runStmts rest (⟨n, true, v⟩ :: env)
  | .appendAssign n v :: rest, env =>
      match lookupBinding env n with
      | none => .error { name := "ReferenceError", message := n ++ " is not defined",
                         response := none, config := .undefined }
      | some b =>
          if b.isConst then .error (typeError "Assignment to constant variable.")
          else runStmts rest (updateBinding env n (b.value ++ v))
  | .ret n :: _, env => .ok (some (((lookupBinding env n).map Binding.value).getD "undefined"))
  | .retFormatError n :: _, env =>
      .ok (some (formatError (((lookupBinding env n).map Binding.value).getD "undefined") none))

/-- The statements of `handleStatusCommand`'s not-configured branch
(plugin, lines 225-234), verbatim: a `const` declaration followed by
`+=` assignments to the same variable. -/
def notConfiguredStmts : List Stmt :=
  [.declConst "message" "**PMS Plugin Status:** ‚ö†Ô∏è Not Configured\n\n",
   .appendAssign "message" "Please run `/pms-config` to set up your Project Management System API connection.\n\n",
   .appendAssign "message" "**Example setup:**\n",
   .appendAssign "message" "```\n",
   .appendAssign "message" "/pms-config\n",
   .appendAssign "message" "```\n\n",
   .appendAssign "message" "Then provide:\n",
   .appendAssign "message" "- Base URL: https://your-pms-domain.com\n",
   .appendAssign "message" "- API Token: Your API token from PMS settings",
   .ret "message"]

/-- The statements of `handleStatusCommand`'s catch branch (plugin,
lines 241-247), verbatim: again `const` followed by `+=`. -/
def connectionErrorStmts (errMessage : String) : List Stmt :=
  [.declConst "message" ("Connection error: " ++ errMessage ++ "\n\n"),
   .appendAssign "message" "**Troubleshooting:**\n",
   .appendAssign "message" "1. Check your internet connection\n",
   .appendAssign "message" "2. Verify your PMS instance is accessible\n",
   .appendAssign "message" "3. Run `/pms-config` to update your settings\n",
   .appendAssign "message" "4. Check if your API token is valid",
   .retFormatError "message"]

/-- `PMSPlugin.handleStatusCommand` (plugin, lines 223-249).  `tryBody`
abstracts the `try` block (`getSystemInfo` + `formatSystemInfo`): `.ok`
is its returned text, `.error` sends control to the catch branch. -/
def handleStatusCommand (api : Option Unit) (tryBody : Except JsError String) :
    Except JsError (Option String) :=
  match api with
  | none => runStmts notConfiguredStmts []
  | some _ =>
      match tryBody with
      | .ok s => .ok (some s)
      | .error e => runStmts (connectionErrorStmts e.message) []

/-- The uniform failure shape of §7: a `success:false` object carrying
`message`, `status` and `data` fields. -/
def isNormalizedFailure (v : JsValue) : Prop :=
  getField v "success" = .bool false
  ∧ hasField v "message" = true
  ∧ hasField v "status" = true
  ∧ hasField v "data" = true

/-- A concrete 401 rejection as axios would deliver it: HTTP status 401
with a body carrying a message. -/
def c2Error : JsError :=
  { name := "Error"
    message := "Request failed with status code 401"
    response := some { status := 401, data := .obj [("message", .str "Invalid token")] }
    config := .undefined }

theorem lookup_setHeader_self (l : List (String × String)) (k v : String) :
    (setHeader l k v).lookup k = some v := by
  induction l with
  | nil => simp [setHeader, List.lookup]
  | cons hd tl ih =>
      obtain ⟨k', v'⟩ := hd
      by_cases h : k' = k
      · subst h
        simp [setHeader, List.lookup]
      · have hb : (k == k') = false := beq_eq_false_iff_ne.mpr (fun hh => h hh.symm)
        simp [setHeader, h, List.lookup, hb, ih]

theorem lookup_setHeader_ne (l : List (String × String)) (key v k : String)
    (h : k ≠ key) : (setHeader l key v).lookup k = l.lookup k := by
  have hb : (k == key) = false := beq_eq_false_iff_ne.mpr h
  induction l with
  | nil => simp [setHeader, List.lookup, hb]
  | cons hd tl ih =>
      obtain ⟨k', v'⟩ := hd
      by_cases hk : k' = key
      · subst hk
        simp [setHeader, List.lookup, hb]
      · cases hbe : k == k'
        · simp [setHeader, hk, List.lookup, hbe, ih]
        · simp [setHeader, hk, List.lookup, hbe]

theorem handleError_normalized (devMode : Bool) (e : JsError) :
    isNormalizedFailure (handleError devMode e) := by
  cases devMode <;> exact ⟨rfl, rfl, rfl, rfl⟩

/-- C2: the claim says a 401 response with body message is normalized to
an object with `status` equal to 401 and the body's message.  The code
instead rethrows a bare `Error` in the response interceptor, which drops
`error.response`, so `handleError` sees no response: the returned object
has `status` `undefined` (not 401) and a `"PMS API Error: "`-prefixed
message.  This theorem evaluates `getTasks` at the failing input, a 401
rejection whose body message is `"Invalid token"`. -/
theorem c2_status_dropped_on_401 :
    getTasks "laracollab" false (fun _ => .err c2Error) (.obj []) =
      .obj [("success", .bool false),
            ("message", .str "PMS API Error: Invalid token"),
            ("status", .undefined),
            ("data", .null)]
    ∧ getField (getTasks "laracollab" false (fun _ => .err c2Error) (.obj [])) "status"
        = .undefined :=
  ⟨rfl, rfl⟩

/-- C4: the claim says a handler invoked while unconfigured returns a
user-actionable formatted error message rather than throwing.  In the
code, `ensureConfigured` throws, and it is called outside the handler's
`try`/`catch` (`if (!this.ensureConfigured()) return;`), so with
`this.api` null the handler propagates the thrown error — for every
configuration record and every behaviour of the guarded body — instead
of returning any formatted text. -/
theorem c4_unconfigured_handler_throws :
    ∀ (config : PluginConfig) (tasksBody : Except JsError String),
      handleTasksCommand none config tasksBody
        = .error (plainError "PMS not configured. Please run `/pms-config` first.") := by
  intro config tasksBody
  rfl

/-- C8: the claim says `getTasks` with an empty filter object on the
native backend requests the bare tasks endpoint with no query
parameters.  In the code, `buildTaskParams` for `laracollab` always
emits all three keys (value `undefined` when the filter lacks them), the
`params ? ... : ''` guard is always true because an object is always
truthy, and `URLSearchParams` stringifies `undefined` values — so the
request URL carries `status=undefined&priority=undefined&project_id=undefined`. -/
theorem c8_empty_filters_emit_undefined_params :
    getTasksUrl "laracollab" (.obj []) =
      "/api/ai/tasks?status=undefined&priority=undefined&project_id=undefined"
    ∧ getTasksUrl "laracollab" (.obj []) ≠ "/api/ai/tasks" := by
  constructor
  · rfl
  · decide

/-- C9: for every parsed buffer-update percentage `p`, the native task
buffer payload carries `buffer_consumption_percentage` equal to `p` and
sets `ccpm_status` to `buffer_consumed` exactly when `p > 75`, to
`in_progress` when `50 < p ≤ 75` and to `not_started` when `p ≤ 50`;
in particular at `p = 80` it is `buffer_consumed`. -/
theorem c9_buffer_status_thresholds :
    ∀ p : ℚ,
      getField (buildTaskBufferPayload "laracollab" (ccpmBufferData p))
          "buffer_consumption_percentage" = .num p
      ∧ (getField (buildTaskBufferPayload "laracollab" (ccpmBufferData p)) "ccpm_status"
           = .str "buffer_consumed" ↔ p > 75)
      ∧ (getField (buildTaskBufferPayload "laracollab" (ccpmBufferData p)) "ccpm_status"
           = .str "in_progress" ↔ 50 < p ∧ p ≤ 75)
      ∧ (getField (buildTaskBufferPayload "laracollab" (ccpmBufferData p)) "ccpm_status"
           = .str "not_started" ↔ p ≤ 50)
      ∧ getField (buildTaskBufferPayload "laracollab" (ccpmBufferData 80)) "ccpm_status"
           = .str "buffer_consumed" := by
  intro p
  have hs : getField (buildTaskBufferPayload "laracollab" (ccpmBufferData p)) "ccpm_status"
      = .str (if p > 75 then "buffer_consumed"
              else if p > 50 then "in_progress"
              else "not_started") := rfl
  refine ⟨rfl, ?_, ?_, ?_, rfl⟩
  all_goals rw [hs]
  all_goals split_ifs with h1 h2 <;> simp_all <;> try linarith

/-- C10: with `this.api` null, `handleStatusCommand` throws
`TypeError: Assignment to constant variable.` while composing the
Not-Configured message (`const message = ...` followed by
`message += ...`), instead of returning the status text; the catch
branch has the same `const`/`+=` fault, so neither of the two messages
can ever be rendered. -/
theorem c10_status_const_reassignment :
    (∀ tryBody : Except JsError String,
      handleStatusCommand none tryBody
        = .error (typeError "Assignment to constant variable."))
    ∧ (∀ e : JsError,
      handleStatusCommand (some ()) (.error e)
        = .error (typeError "Assignment to constant variable.")) :=
  ⟨fun _ => rfl, fun _ => rfl⟩

/-- C1 counterexample: the claim says every supported backend's endpoint
table defines every operation the Adapter invokes, including the CCPM
operations.  The `jira` table (a supported backend) has no
`analyzeCriticalChain` entry, and the `analyzeCriticalChain` Adapter
method on `jira` therefore performs an undefined lookup — its endpoint
call raises a `TypeError`, normalized by `handleError` — even on a
network that would answer every request. -/
theorem c1_counterexample_jira_lacks_ccpm :
    (getEndpoints "jira").analyzeCriticalChain = none
    ∧ analyzeCriticalChain "jira" false (fun _ => .ok .null) "7"
        = handleError false (typeError "endpoints.analyzeCriticalChain is not a function") :=
  ⟨rfl, rfl⟩

/-- C1 (amended): for every backend identifier, the endpoint table
defines all thirteen non-CCPM operations (tasks, task, createTask,
startTask, completeTask, updateProgress, addComment, projects, project,
systemInfo, user, searchTasks, timeLogs); the ten CCPM entries are
defined exactly when the backend is the native `laracollab`. -/
theorem c1_endpoint_table_coverage :
    ∀ systemType : String,
      ((getEndpoints systemType).tasks.isSome = true
       ∧ (getEndpoints systemType).task.isSome = true
       ∧ (getEndpoints systemType).createTask.isSome = true
       ∧ (getEndpoints systemType).startTask.isSome = true
       ∧ (getEndpoints systemType).completeTask.isSome = true
       ∧ (getEndpoints systemType).updateProgress.isSome = true
       ∧ (getEndpoints systemType).addComment.isSome = true
       ∧ (getEndpoints systemType).projects.isSome = true
       ∧ (getEndpoints systemType).project.isSome = true
       ∧ (getEndpoints systemType).systemInfo.isSome = true
       ∧ (getEndpoints systemType).user.isSome = true
       ∧ (getEndpoints systemType).searchTasks.isSome = true
       ∧ (getEndpoints systemType).timeLogs.isSome = true)
      ∧ (((getEndpoints systemType).analyzeCriticalChain.isSome = true ↔ systemType = "laracollab")
       ∧ ((getEndpoints systemType).enableCCPM.isSome = true ↔ systemType = "laracollab")
       ∧ ((getEndpoints systemType).ccpmReport.isSome = true ↔ systemType = "laracollab")
       ∧ ((getEndpoints systemType).updateBufferStatus.isSome = true ↔ systemType = "laracollab")
       ∧ ((getEndpoints systemType).recalculateCriticalChain.isSome = true ↔ systemType = "laracollab")
       ∧ ((getEndpoints systemType).getResourceLoading.isSome = true ↔ systemType = "laracollab")
       ∧ ((getEndpoints systemType).identifyFeedingBuffers.isSome = true ↔ systemType = "laracollab")
       ∧ ((getEndpoints systemType).criticalChainTasks.isSome = true ↔ systemType = "laracollab")
       ∧ ((getEndpoints systemType).updateTaskBuffer.isSome = true ↔ systemType = "laracollab")
       ∧ ((getEndpoints systemType).ccpmDashboard.isSome = true ↔ systemType = "laracollab")) := by
  intro st
  by_cases h1 : st = "laracollab"
  · subst h1
    simp [getEndpoints]
  · by_cases h2 : st = "jira"
    · subst h2
      simp [getEndpoints]
    · by_cases h3 : st = "asana"
      · subst h3
        simp [getEndpoints]
      · by_cases h4 : st = "trello"
        · subst h4
          simp [getEndpoints]
        · simp [getEndpoints, h1, h2, h3, h4]

/-- C3: on every transport or backend failure, each public Adapter
method returns (never propagates) the normalized failure object —
`success:false` with `message`, `status` and `data` fields — and the
normalization (`handleError` over the interceptor's error) is the same
function for every backend.  The methods are total functions in this
embedding precisely because each one's `try`/`catch` covers its whole
body. -/
theorem c3_uniform_error_shape :
    ∀ (systemType : String) (devMode : Bool) (e : JsError)
      (filters taskData settings bufferData : JsValue) (taskId projectId : String),
      getTasks systemType devMode (fun _ => .err e) filters
          = handleError devMode (interceptorReject e)
      ∧ isNormalizedFailure (getTasks systemType devMode (fun _ => .err e) filters)
      ∧ isNormalizedFailure (createTask systemType devMode (fun _ => .err e) taskData)
      ∧ isNormalizedFailure (startTask systemType devMode (fun _ => .err e) taskId)
      ∧ isNormalizedFailure (completeTask systemType devMode (fun _ => .err e) taskId taskData)
      ∧ isNormalizedFailure (enableCCPM systemType devMode (fun _ => .err e) projectId settings)
      ∧ isNormalizedFailure (getResourceLoading systemType devMode (fun _ => .err e) projectId)
      ∧ isNormalizedFailure (updateTaskBuffer systemType devMode (fun _ => .err e) taskId bufferData) := by
  intro st dev e filters taskData settings bufferData taskId projectId
  refine ⟨rfl, ?_, ?_, ?_, ?_, ?_, ?_, ?_⟩
  · exact handleError_normalized dev (interceptorReject e)
  · exact handleError_normalized dev (interceptorReject e)
  · unfold startTask getEndpoints
    split_ifs <;> exact handleError_normalized dev (interceptorReject e)
  · unfold completeTask getEndpoints
    split_ifs <;> exact handleError_normalized dev (interceptorReject e)
  · unfold enableCCPM getEndpoints
    split_ifs <;>
      first
        | exact handleError_normalized dev (interceptorReject e)
        | exact handleError_normalized dev (typeError "endpoints.enableCCPM is not a function")
  · unfold getResourceLoading getEndpoints
    split_ifs <;>
      first
        | exact handleError_normalized dev (interceptorReject e)
        | exact handleError_normalized dev (typeError "endpoints.getResourceLoading is not a function")
  · unfold updateTaskBuffer getEndpoints
    split_ifs <;>
      first
        | exact handleError_normalized dev (interceptorReject e)
        | exact handleError_normalized dev (typeError "endpoints.updateTaskBuffer is not a function")

/-- C5 counterexample: the claim says that after `setApiToken` the whole
header set matches the profile rule applied to the new token, and in
particular that the generic-custom `X-API-Key` header reflects it.  On
the generic-custom profile, updating the token from `OLDTOKEN` to
`NEWTOKEN` leaves `X-API-Key` at `OLDTOKEN`, so the resulting header set
differs from the profile rule applied to `NEWTOKEN`. -/
theorem c5_counterexample_stale_api_key :
    (setApiToken "custom" (getDefaultHeaders "custom" "OLDTOKEN") "NEWTOKEN").lookup "X-API-Key"
        = some "OLDTOKEN"
    ∧ setApiToken "custom" (getDefaultHeaders "custom" "OLDTOKEN") "NEWTOKEN"
        ≠ getDefaultHeaders "custom" "NEWTOKEN" := by
  constructor
  · rfl
  · decide

/-- C5 (amended): for every backend, `setApiToken` recomputes only the
`Authorization` header, which afterwards equals the profile's rule
applied to the new token; every other header (in particular the
generic-custom `X-API-Key`) keeps the value derived from the previous
token. -/
theorem c5_set_api_token_updates_authorization_only :
    ∀ (systemType oldToken newToken k : String), k ≠ "Authorization" →
      ((setApiToken systemType (getDefaultHeaders systemType oldToken) newToken).lookup "Authorization"
         = (getDefaultHeaders systemType newToken).lookup "Authorization")
      ∧ ((setApiToken systemType (getDefaultHeaders systemType oldToken) newToken).lookup k
         = (getDefaultHeaders systemType oldToken).lookup k) := by
  intro st old new k hk
  constructor
  · rw [setApiToken, lookup_setHeader_self]
    unfold headerProp getDefaultHeaders
    split_ifs <;> rfl
  · exact lookup_setHeader_ne _ _ _ _ hk

/-- Witness for `c5_set_api_token_updates_authorization_only` at the
generic-custom profile, tokens `OLD`/`NEW` and header `X-API-Key`. -/
theorem c5_set_api_token_updates_authorization_only_witness :
    ("X-API-Key" ≠ "Authorization")
    ∧ (((setApiToken "custom" (getDefaultHeaders "custom" "OLD") "NEW").lookup "Authorization"
         = (getDefaultHeaders "custom" "NEW").lookup "Authorization")
      ∧ ((setApiToken "custom" (getDefaultHeaders "custom" "OLD") "NEW").lookup "X-API-Key"
         = (getDefaultHeaders "custom" "OLD").lookup "X-API-Key")) :=
  ⟨by decide,
   c5_set_api_token_updates_authorization_only "custom" "OLD" "NEW" "X-API-Key" (by decide)⟩

/-- C6: every backend identifier outside the known set resolves, without
failing, to the generic-custom profile: the bearer-plus-`X-API-Key`
header set, the same endpoint table as `"custom"` (which itself takes
the default branch), and a successfully constructed client whose headers
are exactly that profile's. -/
theorem c6_unknown_backend_generic_profile :
    ∀ systemType apiToken : String,
      systemType ≠ "laracollab" → systemType ≠ "jira" →
      systemType ≠ "asana" → systemType ≠ "trello" →
      getDefaultHeaders systemType apiToken =
        [("Accept", "application/json"), ("User-Agent", "PMS-Claude-Plugin/1.0.0"),
         ("Authorization", "Bearer " ++ apiToken), ("X-API-Key", apiToken)]
      ∧ getEndpoints systemType = getEndpoints "custom"
      ∧ (mkPMSAPI "https://x.test" apiToken 30 systemType).headers
          = getDefaultHeaders systemType apiToken := by
  intro st tok h1 h2 h3 h4
  refine ⟨?_, ?_, rfl⟩
  · simp [getDefaultHeaders, h1, h2, h3, h4]
  · simp [getEndpoints, h1, h2, h3, h4]

/-- Witness for `c6_unknown_backend_generic_profile` at the unknown
identifier `"tuleap"`. -/
theorem c6_unknown_backend_generic_profile_witness :
    (("tuleap" : String) ≠ "laracollab" ∧ ("tuleap" : String) ≠ "jira"
      ∧ ("tuleap" : String) ≠ "asana" ∧ ("tuleap" : String) ≠ "trello")
    ∧ (getDefaultHeaders "tuleap" "token-1234" =
        [("Accept", "application/json"), ("User-Agent", "PMS-Claude-Plugin/1.0.0"),
         ("Authorization", "Bearer " ++ "token-1234"), ("X-API-Key", "token-1234")]
      ∧ getEndpoints "tuleap" = getEndpoints "custom"
      ∧ (mkPMSAPI "https://x.test" "token-1234" 30 "tuleap").headers
          = getDefaultHeaders "tuleap" "token-1234") :=
  ⟨⟨by decide, by decide, by decide, by decide⟩,
   c6_unknown_backend_generic_profile "tuleap" "token-1234"
     (by decide) (by decide) (by decide) (by decide)⟩

/-- C7 counterexample: the claim says `testConnection` is true whenever
the system-info call succeeds and the payload contains one of the marker
fields.  A successful call whose payload contains `id` with the falsy
value `0` makes `testConnection` return `false`, because the code tests
truthiness (`response.ai_version || response.version || response.id`),
not field presence. -/
theorem c7_counterexample_falsy_marker :
    testConnection "laracollab" false (fun _ => .ok (.obj [("id", .num 0)])) = false
    ∧ hasField (.obj [("id", .num 0)]) "id" = true :=
  ⟨rfl, rfl⟩

/-- C7 (amended): `testConnection` returns true iff the system-info call
succeeds with a truthy payload in which at least one of the markers
`ai_version`, `version`, `id` has a truthy value; on every transport or
backend error it returns false (and, being a total function of the
network's behaviour, never throws). -/
theorem c7_test_connection_characterization :
    ∀ (systemType : String) (devMode : Bool) (e : JsError) (payload : JsValue),
      testConnection systemType devMode (fun _ => .err e) = false
      ∧ (testConnection systemType devMode (fun _ => .ok payload) = true ↔
          (jsTruthy payload = true ∧
           (jsTruthy (getField payload "ai_version") = true
            ∨ jsTruthy (getField payload "version") = true
            ∨ jsTruthy (getField payload "id") = true))) := by
  intro st dev e payload
  constructor
  · cases dev <;> rfl
  · simp [testConnection, getSystemInfo, clientCall, tryCatch,
      Bool.and_eq_true, Bool.or_eq_true]
    tauto

end CCPM
